import Mathlib

/-!
A shallow embedding of the Soulstice proof-of-concept conversational agent
(`src/agent/nodes.py`, `src/agent/graph.py`, `src/memory/*.py`,
`src/prompts/system_prompts.py`, `src/config.py`) together with theorems
settling the specification claims about it.

External backends (the chat LLM, the sentence-transformer encoder, the
Chroma vector store, the wall clock and the UUID generator) are opaque
collaborators in the source; here they appear as explicit outcome
parameters threaded through the translated functions.  Python side effects
(store insertions, backend invocations) become explicit outputs.
-/

namespace Soulstice

/-! ## Python string primitives used by the source -/

/-- Python `needle in hay` on the character list of a string:
contiguous-substring containment. -/
def charsContain (needle : List Char) : List Char → Bool
  | [] => needle.isEmpty
  | c :: rest => List.isPrefixOf needle (c :: rest) || charsContain needle rest

/-- Python `needle in hay` for strings. -/
def strContains (hay needle : String) : Bool :=
  charsContain needle.data hay.data

/-- Python `str.lower()`. -/
def pyLower (s : String) : String := String.mk (s.data.map Char.toLower)

/-- Python `str.upper()`. -/
def pyUpper (s : String) : String := String.mk (s.data.map Char.toUpper)

/-- Python `str.strip()`: leading and trailing whitespace removed. -/
def pyStrip (s : String) : String :=
  String.mk
    (((s.data.dropWhile Char.isWhitespace).reverse.dropWhile
      Char.isWhitespace).reverse)

/-- Python `str.capitalize()`: first character uppercased, the rest
lowercased. -/
def pyCapitalize (s : String) : String :=
  match s.data with
  | [] => ""
  | c :: cs => String.mk (c.toUpper :: cs.map Char.toLower)

/-- Truthiness of `Optional[str]` in Python: `None` and `""` are falsy. -/
def pyTruthyOpt : Option String → Bool
  | none => false
  | some s => !(s = "")

/-- Python `state.get(key) or ""` on an `Optional[str]` field. -/
def pyOrEmpty : Option String → String
  | none => ""
  | some s => s

/-! ## Configuration constants (`src/config.py`) -/

def EMBEDDING_MODEL_NAME : String := "all-MiniLM-L6-v2"

def POTENTIAL_RISK_KEYWORDS : List String :=
  ["suicide", "kill myself", "hopeless", "can\x27t go on", "self-harm", "abuse"]

def ESCALATION_MESSAGE : String :=
  "\nI understand you\x27re going through immense pain right now. As an AI, I\x27m not equipped to handle crises like this, but you don\x27t have to face this alone. Please reach out to a crisis hotline or mental health professional immediately. Here are some resources: [Include relevant local/international hotline numbers/links]. They can offer the support you need.\n"

/-! ## Data model (`src/agent/state.py`, `src/memory/*.py`) -/

/-- The metadata dictionary attached to each stored memory
(`MemoryManager.add_interaction`). -/
structure MemMetadata where
  mtype : String
  role : String
  timestamp : String
  session_id : String
  embedding_model : String
  deriving Repr, DecidableEq

/-- One retrieval result `{document, metadata, distance}` as assembled by
`retrieve_relevant_memories`. -/
structure MemoryRecord where
  document : String
  metadata : MemMetadata
  distance : ℚ
  deriving Repr, DecidableEq

/-- One record persisted into the Chroma collection by `add_memory`. -/
structure StoredMemory where
  id : String
  embedding : List ℚ
  document : String
  metadata : MemMetadata
  deriving Repr, DecidableEq

/-- The analysis dictionary parsed from the analysis LLM output JSON (or the
error-tagged sentinel dictionary).  Only the keys the pipeline reads are
modelled; each is optional because `json.loads` may produce any dict. -/
structure AnalysisDict where
  errKey : Option String
  dominant_emotion : Option String
  key_topics : Option String
  deriving Repr, DecidableEq

/-- One role/content entry of the conversation history. -/
structure Turn where
  role : String
  content : String
  deriving Repr, DecidableEq

/-- The agent state record of `src/agent/state.py`, with every `Optional`
field an `Option`. -/
structure AgentState where
  session_id : String
  user_input : String
  input_analysis : Option AnalysisDict
  retrieved_memories : Option (List MemoryRecord)
  conversation_history : List Turn
  response_strategy : Option String
  generated_response : Option String
  needs_escalation : Bool
  error : Option String
  deriving Repr, DecidableEq

/-! ## Token-budgeted history formatting (`format_conversation_history`) -/

/-- Rendering of one history turn inside the loop of
`format_conversation_history`: the role capitalized, a colon and a space,
then the content. -/
def renderTurn (t : Turn) : String :=
  pyCapitalize t.role ++ ": " ++ t.content

/-- The accumulation loop of `format_conversation_history`: walk the
already-reversed history, keep a running token total, append while the
total stays within the budget and `break` at the first turn that would
exceed it.  `tok` is the `count_tokens` tokenizer function. -/
def formatLoop (tok : String → Nat) : List Turn → Nat → Nat → List String
  | [], _, _ => []
  | turn :: rest, currentTokens, maxTokens =>
    let turnText := renderTurn turn
    let turnTokens := tok turnText
    if currentTokens + turnTokens ≤ maxTokens then
      turnText :: formatLoop tok rest (currentTokens + turnTokens) maxTokens
    else
      []

/-- Embedding of `format_conversation_history`: accumulate from
most recent to oldest, then reverse back to chronological order and join
with newlines. -/
def format_conversation_history (tok : String → Nat) (history : List Turn)
    (max_tokens : Nat) : String :=
  String.intercalate "\n" (formatLoop tok history.reverse 0 max_tokens).reverse

/-- The chronological list of rendered turns that
`format_conversation_history` includes. -/
def includedTurns (tok : String → Nat) (history : List Turn) (max_tokens : Nat) :
    List String :=
  (formatLoop tok history.reverse 0 max_tokens).reverse

/-! ## Safety keyword check (`src/prompts/system_prompts.py`) -/

/-- Embedding of `simple_keyword_check`: case-insensitive substring
match of each keyword against the lowered text. -/
def simple_keyword_check (text : String) (keywords : List String) : Bool :=
  let text_lower := pyLower text
  keywords.any (fun keyword => strContains text_lower keyword)

/-! ## Memory subsystem (`src/memory/embedding.py`, `src/memory/vector_store.py`,
`src/memory/memory_manager.py`)

The sentence-transformer encoder is the opaque parameter
`encode : String → Option (List ℚ)` (`none` models an exception inside
`model.encode`, which `get_embedding` catches).  The query call of the
Chroma collection is the opaque parameter `store`; `storeOk = false` models
`collection.query` raising, which `query_memories` catches. -/

/-- Python truthiness of a vector that may be `None`: `None` and the empty
list are falsy. -/
def pyTruthyVec : Option (List ℚ) → Bool
  | none => false
  | some v => !v.isEmpty

/-- The raw result structure returned by `query_memories`
(first row of the Chroma `documents` / `metadatas` / `distances`). -/
structure QueryResults where
  documents : List String
  metadatas : List MemMetadata
  distances : List ℚ
  deriving Repr, DecidableEq

/-- Embedding of `get_embedding`: `None` on blank input; otherwise the
encoder result, with an encoder exception caught and turned into `None`. -/
def get_embedding (encode : String → Option (List ℚ)) (text : String) :
    Option (List ℚ) :=
  if pyStrip text = "" then none
  else encode text

/-- Embedding of `query_memories`: the empty
result structure when the embedding is `None` or when the collection query
raises, otherwise the store answer. -/
def query_memories (store : List ℚ → Nat → Option String → QueryResults)
    (storeOk : Bool) (query_embedding : Option (List ℚ)) (n_results : Nat)
    (where_filter : Option String) : QueryResults :=
  match query_embedding with
  | none => ⟨[], [], []⟩
  | some v => if storeOk then store v n_results where_filter else ⟨[], [], []⟩

/-- Insert one record into a list already sorted ascending by distance
(after elements with a strictly smaller or equal distance, matching the
stability of the Python list sort). -/
def insertByDistance (m : MemoryRecord) : List MemoryRecord → List MemoryRecord
  | [] => [m]
  | x :: xs =>
    if m.distance < x.distance then m :: x :: xs else x :: insertByDistance m xs

/-- The final sort of the retrieval results: ascending stable sort by
distance. -/
def sortByDistance : List MemoryRecord → List MemoryRecord
  | [] => []
  | x :: xs => insertByDistance x (sortByDistance xs)

/-- Python `zip(docs, metadatas, distances)`: truncating three-way zip. -/
def zip3 : List String → List MemMetadata → List ℚ → List MemoryRecord
  | d :: ds, m :: ms, x :: xs => ⟨d, m, x⟩ :: zip3 ds ms xs
  | _, _, _ => []

/-- Embedding of `MemoryManager.retrieve_relevant_memories`:
embed the query (empty result if that fails), query the store with
`where_filter = None`, assemble `MemoryRecord`s and re-sort by distance. -/
def retrieve_relevant_memories (encode : String → Option (List ℚ))
    (store : List ℚ → Nat → Option String → QueryResults) (storeOk : Bool)
    (query_text : String) (session_id : String) (n_results : Nat) :
    List MemoryRecord :=
  match get_embedding encode query_text with
  | none => []
  | some query_embedding =>
    let where_filter : Option String := none
    let results := query_memories store storeOk (some query_embedding) n_results
        where_filter
    sortByDistance (zip3 results.documents results.metadatas results.distances)

/-- Embedding of `MemoryManager.add_interaction`:
build the two episodic documents, embed each, and insert each side
independently when its embedding is truthy.  `userStoreOk` / `aiStoreOk`
model the collection add call raising (caught inside `add_memory`, so
the record is simply not inserted); `timestamp` is the single
`datetime.now` reading and `uid1` / `uid2` the generated UUIDs.  The result
is the list of records actually inserted into the store. -/
def add_interaction (encode : String → Option (List ℚ))
    (userStoreOk aiStoreOk : Bool) (timestamp uid1 uid2 : String)
    (user_input ai_response session_id : String) : List StoredMemory :=
  let user_doc := "User said: " ++ user_input
  let user_embedding := get_embedding encode user_doc
  let user_metadata : MemMetadata :=
    ⟨"episodic", "user", timestamp, session_id, EMBEDDING_MODEL_NAME⟩
  let userPart : List StoredMemory :=
    if pyTruthyVec user_embedding then
      if userStoreOk then
        [⟨uid1, user_embedding.getD [], user_doc, user_metadata⟩]
      else []
    else []
  let ai_doc := "AI responded: " ++ ai_response
  let ai_embedding := get_embedding encode ai_doc
  let ai_metadata : MemMetadata :=
    ⟨"episodic", "ai", timestamp, session_id, EMBEDDING_MODEL_NAME⟩
  let aiPart : List StoredMemory :=
    if pyTruthyVec ai_embedding then
      if aiStoreOk then
        [⟨uid2, ai_embedding.getD [], ai_doc, ai_metadata⟩]
      else []
    else []
  userPart ++ aiPart

/-! ## Pipeline nodes (`src/agent/nodes.py`) -/

/-- Fallback strings of `generate_response_node`. -/
def ERROR_FALLBACK_MESSAGE : String :=
  "I\x27m sorry, I encountered an error. Could you please rephrase?"

def TROUBLE_FALLBACK_MESSAGE : String :=
  "I\x27m having trouble formulating a response right now. Could you try saying that differently?"

/-- Outcome of the analysis LLM call in `process_input_node`: a parsed
dictionary, a `json.JSONDecodeError`, or any other exception from the
chain invocation. -/
inductive AnalysisOutcome
  | ok (analysis : AnalysisDict)
  | parseFail
  | callFail
  deriving Repr, DecidableEq

/-- Embedding of `process_input_node`: store the parsed analysis, or on failure
set `error` and an error-tagged sentinel analysis and continue. -/
def process_input_node (outcome : AnalysisOutcome) (state : AgentState) :
    AgentState :=
  match outcome with
  | .ok analysis => { state with input_analysis := some analysis }
  | .parseFail =>
    { state with
        error := some "Failed to analyze input.",
        input_analysis := some ⟨some "JSON parsing failed", none, none⟩ }
  | .callFail =>
    { state with
        error := some "An error occurred during input analysis.",
        input_analysis := some ⟨some "LLM call failed", none, none⟩ }

/-- Truthiness of the error key of the input-analysis dictionary. -/
def analysisErrTruthy (a : Option AnalysisDict) : Bool :=
  match a with
  | none => false
  | some d => pyTruthyOpt d.errKey

/-- Embedding of `retrieve_memory_node`: skip (with an empty result) when an
error is already recorded or the analysis is missing or error-tagged;
otherwise build the query text (LLM-generated, or the templated fallback
when the query-generation call raises), call
`retrieve_relevant_memories`, and on an exception from that call record
the retrieval error and fall back to an empty list.  `queryGen` is the
outcome of the query-generation LLM; `callRaises` models the retrieval call
raising past the manager (lazy collaborator initialization). -/
def retrieve_memory_node (queryGen : Option String) (callRaises : Bool)
    (encode : String → Option (List ℚ))
    (store : List ℚ → Nat → Option String → QueryResults) (storeOk : Bool)
    (state : AgentState) : AgentState :=
  if pyTruthyOpt state.error || state.input_analysis.isNone
      || analysisErrTruthy state.input_analysis then
    { state with retrieved_memories := some [] }
  else
    let analysis := state.input_analysis.getD ⟨none, none, none⟩
    let query_text :=
      match queryGen with
      | some q => q
      | none =>
        "Topics: " ++ analysis.key_topics.getD "[]" ++ ", Emotion: "
          ++ analysis.dominant_emotion.getD "neutral" ++ ". User input: "
          ++ state.user_input
    if callRaises then
      { state with
          error := some "Failed to retrieve memories.",
          retrieved_memories := some [] }
    else
      { state with
          retrieved_memories := some (retrieve_relevant_memories encode store
            storeOk query_text state.session_id 5) }

/-- Outcome of the risk-assessment LLM call in `ethical_check_node`. -/
inductive SemanticOutcome
  | ok (answer : String)
  | raises
  deriving Repr, DecidableEq

/-- Embedding of `ethical_check_node`: skip (escalation `False`) when an error is
already recorded; otherwise run the keyword check, then the LLM
assessment — `"YES"` (after strip/upper) forces escalation, any other
answer leaves the keyword verdict, and an exception appends a note to
`error` while keeping the keyword verdict. -/
def ethical_check_node (semantic : SemanticOutcome) (state : AgentState) :
    AgentState :=
  if pyTruthyOpt state.error then
    { state with needs_escalation := false }
  else
    let keywordHit := simple_keyword_check state.user_input POTENTIAL_RISK_KEYWORDS
    match semantic with
    | .ok answer =>
      let verdict := if pyUpper (pyStrip answer) = "YES" then true else keywordHit
      { state with needs_escalation := verdict }
    | .raises =>
      { state with
          error := some (pyOrEmpty state.error ++ " Ethical check LLM failed."),
          needs_escalation := keywordHit }

/-- Outcome of the response-generation LLM call. -/
inductive GenOutcome
  | ok (response : String)
  | raises
  deriving Repr, DecidableEq

/-- Embedding of `generate_response_node`, with its side effects made explicit:
the returned `Bool` is whether the generation backend was invoked and the
returned list is the records persisted via `add_interaction`.  Branches in
source order: recorded error → fixed apology, no backend call; escalation →
fixed `ESCALATION_MESSAGE`, no backend call, no persistence; otherwise call
the backend, and on success persist the turn (a persistence exception
appends to `error` but keeps the response), on failure append to `error`
and emit the trouble fallback.  `persistRaises` models `add_interaction`
raising before any insertion (lazy collaborator initialization, which
precedes every store write). -/
def generate_response_node (gen : GenOutcome)
    (encode : String → Option (List ℚ)) (userStoreOk aiStoreOk : Bool)
    (persistRaises : Bool) (timestamp uid1 uid2 : String)
    (state : AgentState) : AgentState × Bool × List StoredMemory :=
  if pyTruthyOpt state.error then
    ({ state with generated_response := some ERROR_FALLBACK_MESSAGE }, false, [])
  else if state.needs_escalation then
    ({ state with generated_response := some ESCALATION_MESSAGE }, false, [])
  else
    match gen with
    | .ok response =>
      if persistRaises then
        ({ state with
            generated_response := some response,
            error := some (pyOrEmpty state.error
              ++ " Failed to save interaction to memory.") }, true, [])
      else
        ({ state with generated_response := some response }, true,
          add_interaction encode userStoreOk aiStoreOk timestamp uid1 uid2
            state.user_input response state.session_id)
    | .raises =>
      ({ state with
          error := some (pyOrEmpty state.error ++ " Failed to generate response."),
          generated_response := some TROUBLE_FALLBACK_MESSAGE }, false, [])

/-- Embedding of `should_continue`: the conditional edge after the ethical
check. -/
def should_continue (state : AgentState) : String :=
  if pyTruthyOpt state.error then "end"
  else if state.needs_escalation then "generate_response"
  else "generate_response"

/-! ## The compiled graph (`src/agent/graph.py`) -/

/-- All backend outcomes consumed by one turn. -/
structure TurnOutcomes where
  analysis : AnalysisOutcome
  queryGen : Option String
  retrieveRaises : Bool
  encode : String → Option (List ℚ)
  store : List ℚ → Nat → Option String → QueryResults
  storeQueryOk : Bool
  semantic : SemanticOutcome
  gen : GenOutcome
  persistRaises : Bool
  userStoreOk : Bool
  aiStoreOk : Bool
  timestamp : String
  uid1 : String
  uid2 : String

/-- One invocation of the compiled graph: `process_input` →
`retrieve_memory` → `ethical_check`, then the conditional edge
(`should_continue`): `"end"` goes straight to `END`, `"generate_response"`
runs the generation node and then reaches `END`.  Returned alongside the
final state: whether the generation backend was invoked and the records
persisted this turn. -/
def run_turn (o : TurnOutcomes) (state : AgentState) :
    AgentState × Bool × List StoredMemory :=
  let s1 := process_input_node o.analysis state
  let s2 := retrieve_memory_node o.queryGen o.retrieveRaises o.encode o.store
    o.storeQueryOk s1
  let s3 := ethical_check_node o.semantic s2
  if should_continue s3 = "end" then (s3, false, [])
  else
    generate_response_node o.gen o.encode o.userStoreOk o.aiStoreOk
      o.persistRaises o.timestamp o.uid1 o.uid2 s3

/-! ## Lemmas about the token-budgeted history formatter -/

/-- Total token count of a list of rendered turns. -/
def tokenSum (tok : String → Nat) (l : List String) : Nat :=
  (l.map tok).sum

theorem renderTurn_ne_empty (t : Turn) : renderTurn t ≠ "" := by
  intro h
  have hlen := congrArg String.length h
  unfold renderTurn at hlen
  rw [String.length_append, String.length_append] at hlen
  have h2 : (": " : String).length = 2 := rfl
  have h0 : ("" : String).length = 0 := rfl
  rw [h2, h0] at hlen
  omega

theorem formatLoop_initseg (tok : String → Nat) (l : List Turn) :
    ∀ cur m, formatLoop tok l cur m <+: l.map renderTurn := by
  induction l with
  | nil => intro cur m; simp [formatLoop]
  | cons t ts ih =>
    intro cur m
    simp only [formatLoop, List.map_cons]
    split
    · exact List.cons_prefix_cons.mpr ⟨rfl, ih _ _⟩
    · exact List.nil_prefix

theorem formatLoop_sum_le (tok : String → Nat) (l : List Turn) :
    ∀ cur m, cur ≤ m →
      cur + tokenSum tok (formatLoop tok l cur m) ≤ m := by
  induction l with
  | nil => intro cur m h; simpa [formatLoop, tokenSum] using h
  | cons t ts ih =>
    intro cur m h
    simp only [formatLoop]
    split
    · rename_i hc
      have hrec := ih (cur + tok (renderTurn t)) m hc
      simp only [tokenSum, List.map_cons, List.sum_cons] at hrec ⊢
      omega
    · simpa [tokenSum] using h

theorem formatLoop_stop (tok : String → Nat) (l : List Turn) :
    ∀ cur m nxt rest,
      (l.map renderTurn).drop (formatLoop tok l cur m).length = nxt :: rest →
      m < cur + tokenSum tok (formatLoop tok l cur m) + tok nxt := by
  induction l with
  | nil => intro cur m nxt rest h; simp [formatLoop] at h
  | cons t ts ih =>
    intro cur m nxt rest h
    simp only [formatLoop, List.map_cons] at h ⊢
    by_cases hc : cur + tok (renderTurn t) ≤ m
    · rw [if_pos hc] at h ⊢
      simp only [List.length_cons, List.drop_succ_cons] at h
      have hrec := ih (cur + tok (renderTurn t)) m nxt rest h
      simp only [tokenSum, List.map_cons, List.sum_cons] at hrec ⊢
      omega
    · rw [if_neg hc] at h ⊢
      simp only [List.length_nil, List.drop_zero, List.cons.injEq] at h
      simp only [tokenSum, List.map_nil, List.sum_nil]
      rw [← h.1]
      omega

theorem formatLoop_mono (tok : String → Nat) (l : List Turn) :
    ∀ cur b1 b2, b1 ≤ b2 →
      formatLoop tok l cur b1 <+: formatLoop tok l cur b2 := by
  induction l with
  | nil => intro cur b1 b2 _; simp [formatLoop]
  | cons t ts ih =>
    intro cur b1 b2 hb
    simp only [formatLoop]
    by_cases h1 : cur + tok (renderTurn t) ≤ b1
    · rw [if_pos h1, if_pos (le_trans h1 hb)]
      exact List.cons_prefix_cons.mpr ⟨rfl, ih _ _ _ hb⟩
    · rw [if_neg h1]
      exact List.nil_prefix

theorem formatLoop_zero (tok : String → Nat) (l : List Turn)
    (htok : ∀ s, s ≠ "" → 0 < tok s) : formatLoop tok l 0 0 = [] := by
  cases l with
  | nil => rfl
  | cons t ts =>
    simp only [formatLoop]
    rw [if_neg]
    have := htok (renderTurn t) (renderTurn_ne_empty t)
    omega

/-- C6: `format_conversation_history` walks the history from most recent to
oldest, renders each turn as the capitalized role, a colon and the content,
accumulates turns while
the running token total stays within the budget, stops permanently at the
first turn that would exceed it, and returns the accumulated turns back in
chronological order joined by newlines; an empty history or a zero budget
yields the empty string (for any tokenizer that assigns a positive count to
every nonempty string). -/
theorem claim_C6 (tok : String → Nat) (history : List Turn) (b : Nat)
    (htok : ∀ s, s ≠ "" → 0 < tok s) :
    format_conversation_history tok [] b = "" ∧
    format_conversation_history tok history 0 = "" ∧
    includedTurns tok history b <:+ history.map renderTurn ∧
    format_conversation_history tok history b =
      String.intercalate "\n" (includedTurns tok history b) ∧
    tokenSum tok (includedTurns tok history b) ≤ b ∧
    ∀ nxt rest,
      (history.reverse.map renderTurn).drop
          (includedTurns tok history b).length = nxt :: rest →
      b < tokenSum tok (includedTurns tok history b) + tok nxt := by
  refine ⟨rfl, ?_, ?_, rfl, ?_, ?_⟩
  · unfold format_conversation_history
    rw [formatLoop_zero tok _ htok]
    rfl
  · have h2 : (includedTurns tok history b).reverse
        <+: (history.map renderTurn).reverse := by
      unfold includedTurns
      rw [List.reverse_reverse, ← List.map_reverse]
      exact formatLoop_initseg tok history.reverse 0 b
    exact List.reverse_prefix.mp h2
  · have h := formatLoop_sum_le tok history.reverse 0 b (Nat.zero_le b)
    unfold includedTurns tokenSum at h ⊢
    rw [List.map_reverse, List.sum_reverse]
    omega
  · intro nxt rest hdrop
    have hlen : (includedTurns tok history b).length
        = (formatLoop tok history.reverse 0 b).length := by
      unfold includedTurns
      exact List.length_reverse _
    rw [hlen] at hdrop
    have h := formatLoop_stop tok history.reverse 0 b nxt rest hdrop
    unfold includedTurns tokenSum at h ⊢
    rw [List.map_reverse, List.sum_reverse]
    omega

/-- Witness for C6 at a concrete tokenizer, history and budget. -/
theorem claim_C6_witness :
    format_conversation_history (fun _ => 1) ([] : List Turn) 1 = "" ∧
    format_conversation_history (fun _ => 1)
      [⟨"user", "hi"⟩, ⟨"ai", "hey"⟩] 0 = "" ∧
    includedTurns (fun _ => 1) [⟨"user", "hi"⟩, ⟨"ai", "hey"⟩] 1 <:+
      ([⟨"user", "hi"⟩, ⟨"ai", "hey"⟩] : List Turn).map renderTurn ∧
    format_conversation_history (fun _ => 1) [⟨"user", "hi"⟩, ⟨"ai", "hey"⟩] 1 =
      String.intercalate "\n"
        (includedTurns (fun _ => 1) [⟨"user", "hi"⟩, ⟨"ai", "hey"⟩] 1) ∧
    tokenSum (fun _ => 1)
      (includedTurns (fun _ => 1) [⟨"user", "hi"⟩, ⟨"ai", "hey"⟩] 1) ≤ 1 ∧
    ∀ nxt rest,
      (([⟨"user", "hi"⟩, ⟨"ai", "hey"⟩] : List Turn).reverse.map
          renderTurn).drop
        (includedTurns (fun _ => 1) [⟨"user", "hi"⟩, ⟨"ai", "hey"⟩] 1).length
        = nxt :: rest →
      1 < tokenSum (fun _ => 1)
        (includedTurns (fun _ => 1) [⟨"user", "hi"⟩, ⟨"ai", "hey"⟩] 1)
        + (fun _ => 1) nxt :=
  claim_C6 (fun _ => 1) [⟨"user", "hi"⟩, ⟨"ai", "hey"⟩] 1
    (fun _ _ => Nat.one_pos)

/-- C7: increasing the token budget never removes an included turn — the
turns included at the smaller budget form a chronological suffix of those
included at the larger budget. -/
theorem claim_C7 (tok : String → Nat) (history : List Turn) (b1 b2 : Nat)
    (h : b1 < b2) :
    includedTurns tok history b1 <:+ includedTurns tok history b2 := by
  unfold includedTurns
  exact List.reverse_suffix.mpr
    (formatLoop_mono tok history.reverse 0 b1 b2 (Nat.le_of_lt h))

/-- Witness for C7 at a concrete tokenizer, history and budget pair. -/
theorem claim_C7_witness :
    includedTurns String.length [⟨"user", "hi"⟩] 0 <:+
      includedTurns String.length [⟨"user", "hi"⟩] 9 :=
  claim_C7 String.length [⟨"user", "hi"⟩] 0 9 (by decide)

/-! ## Safety gate, generation and routing claims -/

/-- C3: whenever the case-insensitive lexical keyword check matches the
user input, the safety stage sets `needs_escalation` to `true` regardless
of the semantic LLM check answer or failure — the semantic check can
never retract a lexical positive verdict. -/
theorem claim_C3 (state : AgentState) (semantic : SemanticOutcome)
    (herr : state.error = none)
    (hkw : simple_keyword_check state.user_input POTENTIAL_RISK_KEYWORDS
      = true) :
    (ethical_check_node semantic state).needs_escalation = true := by
  unfold ethical_check_node
  rw [herr]
  cases semantic with
  | ok answer =>
    simp only [pyTruthyOpt, Bool.false_eq_true, if_false, hkw]
    split <;> rfl
  | raises =>
    simp only [pyTruthyOpt, Bool.false_eq_true, if_false, hkw]

/-- Witness for C3: the input `"I feel hopeless"` matches the keyword list
and escalates even though the semantic check raises. -/
theorem claim_C3_witness :
    (ethical_check_node .raises
      { session_id := "s", user_input := "I feel hopeless",
        input_analysis := none, retrieved_memories := some [],
        conversation_history := [], response_strategy := none,
        generated_response := none, needs_escalation := false,
        error := none }).needs_escalation = true :=
  claim_C3 _ .raises rfl (by rfl)

/-- C4: on a state with `needs_escalation` true and `error` unset, the
generation stage emits exactly the fixed `ESCALATION_MESSAGE`, does not
invoke the generation backend, and persists nothing to memory. -/
theorem claim_C4 (gen : GenOutcome) (encode : String → Option (List ℚ))
    (userStoreOk aiStoreOk persistRaises : Bool)
    (timestamp uid1 uid2 : String) (state : AgentState)
    (hesc : state.needs_escalation = true) (herr : state.error = none) :
    generate_response_node gen encode userStoreOk aiStoreOk persistRaises
        timestamp uid1 uid2 state =
      ({ state with generated_response := some ESCALATION_MESSAGE },
        false, []) := by
  unfold generate_response_node
  rw [herr, hesc]
  rfl

/-- Witness for C4 at a concrete escalating state. -/
theorem claim_C4_witness :
    generate_response_node (.ok "generated") (fun _ => some [1]) true true
        false "t" "u1" "u2"
        { session_id := "s", user_input := "I feel hopeless",
          input_analysis := none, retrieved_memories := some [],
          conversation_history := [], response_strategy := none,
          generated_response := none, needs_escalation := true,
          error := none } =
      ({ session_id := "s", user_input := "I feel hopeless",
          input_analysis := none, retrieved_memories := some [],
          conversation_history := [], response_strategy := none,
          generated_response := some ESCALATION_MESSAGE,
          needs_escalation := true, error := none }, false, []) :=
  claim_C4 (.ok "generated") (fun _ => some [1]) true true false "t" "u1"
    "u2" _ rfl rfl

/-- Concrete turn for C5: a keyword-matching input whose semantic risk
assessment raises. -/
def c5_state : AgentState :=
  { session_id := "s", user_input := "I feel hopeless",
    input_analysis := none, retrieved_memories := none,
    conversation_history := [], response_strategy := none,
    generated_response := none, needs_escalation := false, error := none }

def c5_outcomes : TurnOutcomes :=
  { analysis := .ok ⟨none, some "sadness", some "loneliness"⟩,
    queryGen := some "past sadness", retrieveRaises := false,
    encode := fun _ => none, store := fun _ _ _ => ⟨[], [], []⟩,
    storeQueryOk := true, semantic := .raises, gen := .ok "unused",
    persistRaises := false, userStoreOk := true, aiStoreOk := true,
    timestamp := "t", uid1 := "u1", uid2 := "u2" }

/-- C5: there is an input on which the lexical keyword check matches while
the semantic assessment call raises; the safety stage then leaves the
final state with `needs_escalation` true and `error` set, the router sends
the turn directly to `END`, and `generated_response` stays unset — the
escalation message is never emitted for that turn. -/
theorem claim_C5 :
    simple_keyword_check c5_state.user_input POTENTIAL_RISK_KEYWORDS
      = true ∧
    (run_turn c5_outcomes c5_state).1.needs_escalation = true ∧
    (run_turn c5_outcomes c5_state).1.error
      = some " Ethical check LLM failed." ∧
    should_continue (run_turn c5_outcomes c5_state).1 = "end" ∧
    (run_turn c5_outcomes c5_state).1.generated_response = none ∧
    (run_turn c5_outcomes c5_state).2.1 = false ∧
    (run_turn c5_outcomes c5_state).2.2 = [] :=
  ⟨rfl, rfl, rfl, rfl, rfl, rfl, rfl⟩

/-- C10: retrieval ignores its `session_id` argument — for any query, any
store behavior and any limit, two calls differing only in the session
identifier return identical results, because the store query is always
issued with `where_filter = None`. -/
theorem claim_C10 (encode : String → Option (List ℚ))
    (store : List ℚ → Nat → Option String → QueryResults) (storeOk : Bool)
    (query_text s1 s2 : String) (n_results : Nat) :
    retrieve_relevant_memories encode store storeOk query_text s1 n_results
      = retrieve_relevant_memories encode store storeOk query_text s2
        n_results := rfl

/-- C8: when embedding the query yields `None` (blank input or encoder
failure), `retrieve_relevant_memories` returns the empty list instead of
failing, and the retrieval node does not set the turn `error` field on that
path. -/
theorem claim_C8 (encode : String → Option (List ℚ))
    (store : List ℚ → Nat → Option String → QueryResults) (storeOk : Bool)
    (queryGen : Option String) (state : AgentState)
    (hemb : ∀ t, encode t = none) :
    (∀ q sid n, retrieve_relevant_memories encode store storeOk q sid n
      = []) ∧
    (∀ (encode2 : String → Option (List ℚ)) q sid n, pyStrip q = "" →
      retrieve_relevant_memories encode2 store storeOk q sid n = []) ∧
    (retrieve_memory_node queryGen false encode store storeOk state).error
      = state.error := by
  refine ⟨?_, ?_, ?_⟩
  · intro q sid n
    unfold retrieve_relevant_memories get_embedding
    rw [hemb]
    simp
  · intro encode2 q sid n hq
    unfold retrieve_relevant_memories get_embedding
    rw [if_pos hq]
  · unfold retrieve_memory_node
    split
    · rfl
    · rfl

/-- Witness for C8: a uniformly failing encoder at a concrete state. -/
theorem claim_C8_witness :
    (∀ q sid n,
      retrieve_relevant_memories (fun _ => none)
        (fun _ _ _ => ⟨[], [], []⟩) true q sid n = []) ∧
    (∀ (encode2 : String → Option (List ℚ)) q sid n, pyStrip q = "" →
      retrieve_relevant_memories encode2 (fun _ _ _ => ⟨[], [], []⟩) true
        q sid n = []) ∧
    (retrieve_memory_node (some "query") false (fun _ => none)
        (fun _ _ _ => ⟨[], [], []⟩) true
        { session_id := "s", user_input := "hello",
          input_analysis := some ⟨none, some "neutral", some "greeting"⟩,
          retrieved_memories := none, conversation_history := [],
          response_strategy := none, generated_response := none,
          needs_escalation := false, error := none }).error =
      ({ session_id := "s", user_input := "hello",
          input_analysis := some ⟨none, some "neutral", some "greeting"⟩,
          retrieved_memories := none, conversation_history := [],
          response_strategy := none, generated_response := none,
          needs_escalation := false, error := none } : AgentState).error :=
  claim_C8 (fun _ => none) (fun _ _ _ => ⟨[], [], []⟩) true (some "query")
    _ (fun _ => rfl)

/-! ## Degraded-turn routing and error propagation -/

/-- Concrete turn for C1: the analysis backend fails on an ordinary
input. -/
def c1_state : AgentState :=
  { session_id := "s", user_input := "had a rough day at work",
    input_analysis := none, retrieved_memories := none,
    conversation_history := [], response_strategy := none,
    generated_response := none, needs_escalation := false, error := none }

def c1_outcomes : TurnOutcomes :=
  { analysis := .callFail, queryGen := none, retrieveRaises := false,
    encode := fun _ => none, store := fun _ _ _ => ⟨[], [], []⟩,
    storeQueryOk := true, semantic := .ok "NO", gen := .ok "a generated reply",
    persistRaises := false, userStoreOk := true, aiStoreOk := true,
    timestamp := "t", uid1 := "u1", uid2 := "u2" }

/-- C1 (counterexample): with the analysis backend failing, the turn ends
with `error` set but `generated_response` absent — the fixed apologetic
fallback string is not produced, contradicting the claim that the
degraded-error branch emits it. -/
theorem claim_C1_counterexample :
    (run_turn c1_outcomes c1_state).1.error
      = some "An error occurred during input analysis." ∧
    (run_turn c1_outcomes c1_state).1.generated_response = none ∧
    ¬ (run_turn c1_outcomes c1_state).1.generated_response
      = some ERROR_FALLBACK_MESSAGE := by
  have hnone : (run_turn c1_outcomes c1_state).1.generated_response = none :=
    rfl
  refine ⟨rfl, hnone, ?_⟩
  rw [hnone]
  simp

/-- C1 (amended): for every turn in which the analysis stage fails, the
router sends the turn directly to `END`: the final state has a nonempty
`error`, `retrieved_memories` equal to the empty list and
`needs_escalation` false, but `generated_response` remains absent — the
generation node (and with it the apologetic fallback) is never reached,
no backend is invoked and nothing is persisted. -/
theorem claim_C1_amended (o : TurnOutcomes) (state : AgentState)
    (herr : state.error = none) (hresp : state.generated_response = none)
    (hfail : o.analysis = AnalysisOutcome.parseFail
      ∨ o.analysis = AnalysisOutcome.callFail) :
    pyTruthyOpt (run_turn o state).1.error = true ∧
    (run_turn o state).1.retrieved_memories = some [] ∧
    (run_turn o state).1.needs_escalation = false ∧
    (run_turn o state).1.generated_response = none ∧
    should_continue (run_turn o state).1 = "end" ∧
    (run_turn o state).2.1 = false ∧
    (run_turn o state).2.2 = [] := by
  have hM1 : pyTruthyOpt (some "Failed to analyze input.") = true := rfl
  have hM2 : pyTruthyOpt
      (some "An error occurred during input analysis.") = true := rfl
  rcases hfail with h | h <;>
    simp [run_turn, h, process_input_node, retrieve_memory_node,
      ethical_check_node, should_continue, hM1, hM2, hresp, herr]

/-- Witness for C1 (amended) at the concrete failing turn. -/
theorem claim_C1_amended_witness :
    pyTruthyOpt (run_turn c1_outcomes c1_state).1.error = true ∧
    (run_turn c1_outcomes c1_state).1.retrieved_memories = some [] ∧
    (run_turn c1_outcomes c1_state).1.needs_escalation = false ∧
    (run_turn c1_outcomes c1_state).1.generated_response = none ∧
    should_continue (run_turn c1_outcomes c1_state).1 = "end" ∧
    (run_turn c1_outcomes c1_state).2.1 = false ∧
    (run_turn c1_outcomes c1_state).2.2 = [] :=
  claim_C1_amended c1_outcomes c1_state rfl rfl (Or.inr rfl)

/-- Concrete state for C2: a turn that already carries the error `"A"`. -/
def c2_state : AgentState :=
  { session_id := "s", user_input := "hello",
    input_analysis := some ⟨none, some "neutral", some "greeting"⟩,
    retrieved_memories := some [], conversation_history := [],
    response_strategy := none, generated_response := none,
    needs_escalation := false, error := some "A" }

/-- C2 (counterexample): the analysis stage, failing on a state whose
`error` already holds `"A"`, replaces it with its own message alone — the
result does not contain `"A"` as a substring. -/
theorem claim_C2_counterexample :
    (process_input_node .parseFail c2_state).error
      = some "Failed to analyze input." ∧
    strContains "Failed to analyze input." "A" = false :=
  ⟨rfl, rfl⟩

/-- C2 (amended): stages after the analysis stage never replace a
previously recorded nonempty error — retrieval, safety-check and
generation all leave a pre-existing `error` exactly as it was (when it is
set they skip their fallible work, so they cannot independently fail
then); the analysis stage, by contrast, overwrites any pre-existing error
with just its own failure message. -/
theorem claim_C2_amended (state : AgentState) (a : String)
    (herr : state.error = some a) (hne : a ≠ "") :
    (∀ queryGen callRaises encode store storeOk,
      (retrieve_memory_node queryGen callRaises encode store storeOk
        state).error = some a) ∧
    (∀ semantic,
      (ethical_check_node semantic state).error = some a) ∧
    (∀ gen encode userStoreOk aiStoreOk persistRaises timestamp uid1 uid2,
      (generate_response_node gen encode userStoreOk aiStoreOk
        persistRaises timestamp uid1 uid2 state).1.error = some a) ∧
    (process_input_node .parseFail state).error
      = some "Failed to analyze input." ∧
    (process_input_node .callFail state).error
      = some "An error occurred during input analysis." := by
  have htr : pyTruthyOpt state.error = true := by
    rw [herr]
    simp [pyTruthyOpt, hne]
  refine ⟨?_, ?_, ?_, rfl, rfl⟩
  · intro queryGen callRaises encode store storeOk
    unfold retrieve_memory_node
    rw [htr]
    simp [herr]
  · intro semantic
    unfold ethical_check_node
    rw [htr]
    simp [herr]
  · intro gen encode userStoreOk aiStoreOk persistRaises timestamp uid1 uid2
    unfold generate_response_node
    rw [htr]
    simp [herr]

/-- Witness for C2 (amended) at the concrete state carrying error `"A"`. -/
theorem claim_C2_amended_witness :
    (∀ queryGen callRaises encode store storeOk,
      (retrieve_memory_node queryGen callRaises encode store storeOk
        c2_state).error = some "A") ∧
    (∀ semantic,
      (ethical_check_node semantic c2_state).error = some "A") ∧
    (∀ gen encode userStoreOk aiStoreOk persistRaises timestamp uid1 uid2,
      (generate_response_node gen encode userStoreOk aiStoreOk
        persistRaises timestamp uid1 uid2 c2_state).1.error = some "A") ∧
    (process_input_node .parseFail c2_state).error
      = some "Failed to analyze input." ∧
    (process_input_node .callFail c2_state).error
      = some "An error occurred during input analysis." :=
  claim_C2_amended c2_state "A" rfl (by decide)

/-! ## Memory persistence -/

/-- C9: when both embeddings succeed (and the store accepts both inserts),
`add_interaction` stores exactly two records — role `user` and role `ai` —
sharing one timestamp and each annotated with the session identifier and
the embedding-model name; moreover each side is inserted independently of
the embedding or store outcome of the other side, and the call never raises
(it is a total function of its outcomes). -/
theorem claim_C9 (encode : String → Option (List ℚ))
    (timestamp uid1 uid2 user_input ai_response session_id : String)
    (vu va : List ℚ)
    (hu : get_embedding encode ("User said: " ++ user_input) = some vu)
    (hu0 : vu ≠ [])
    (ha : get_embedding encode ("AI responded: " ++ ai_response) = some va)
    (ha0 : va ≠ []) :
    add_interaction encode true true timestamp uid1 uid2 user_input
        ai_response session_id =
      [⟨uid1, vu, "User said: " ++ user_input,
        ⟨"episodic", "user", timestamp, session_id, EMBEDDING_MODEL_NAME⟩⟩,
       ⟨uid2, va, "AI responded: " ++ ai_response,
        ⟨"episodic", "ai", timestamp, session_id, EMBEDDING_MODEL_NAME⟩⟩] ∧
    (∀ (encode2 : String → Option (List ℚ)) (aiStoreOk : Bool),
      get_embedding encode2 ("User said: " ++ user_input) = some vu →
      (⟨uid1, vu, "User said: " ++ user_input,
        ⟨"episodic", "user", timestamp, session_id,
          EMBEDDING_MODEL_NAME⟩⟩ : StoredMemory)
        ∈ add_interaction encode2 true aiStoreOk timestamp uid1 uid2
            user_input ai_response session_id) ∧
    (∀ (encode3 : String → Option (List ℚ)) (userStoreOk : Bool),
      get_embedding encode3 ("AI responded: " ++ ai_response) = some va →
      (⟨uid2, va, "AI responded: " ++ ai_response,
        ⟨"episodic", "ai", timestamp, session_id,
          EMBEDDING_MODEL_NAME⟩⟩ : StoredMemory)
        ∈ add_interaction encode3 userStoreOk true timestamp uid1 uid2
            user_input ai_response session_id) := by
  refine ⟨?_, ?_, ?_⟩
  · unfold add_interaction
    simp [hu, ha, pyTruthyVec, hu0, ha0]
  · intro encode2 aiStoreOk hu2
    unfold add_interaction
    simp [hu2, pyTruthyVec, hu0]
  · intro encode3 userStoreOk ha3
    unfold add_interaction
    simp [ha3, pyTruthyVec, ha0]

/-- A concrete encoder succeeding on both sides of one interaction. -/
def c9_encode : String → Option (List ℚ) := fun t =>
  if t = "User said: hi" then some [1]
  else if t = "AI responded: hello there" then some [2]
  else none

/-- Witness for C9 at a concrete interaction. -/
theorem claim_C9_witness :
    add_interaction c9_encode true true "t" "u1" "u2" "hi" "hello there"
        "sess" =
      [⟨"u1", [1], "User said: " ++ "hi",
        ⟨"episodic", "user", "t", "sess", EMBEDDING_MODEL_NAME⟩⟩,
       ⟨"u2", [2], "AI responded: " ++ "hello there",
        ⟨"episodic", "ai", "t", "sess", EMBEDDING_MODEL_NAME⟩⟩] ∧
    (∀ (encode2 : String → Option (List ℚ)) (aiStoreOk : Bool),
      get_embedding encode2 ("User said: " ++ "hi") = some [1] →
      (⟨"u1", [1], "User said: " ++ "hi",
        ⟨"episodic", "user", "t", "sess",
          EMBEDDING_MODEL_NAME⟩⟩ : StoredMemory)
        ∈ add_interaction encode2 true aiStoreOk "t" "u1" "u2" "hi"
            "hello there" "sess") ∧
    (∀ (encode3 : String → Option (List ℚ)) (userStoreOk : Bool),
      get_embedding encode3 ("AI responded: " ++ "hello there")
          = some [2] →
      (⟨"u2", [2], "AI responded: " ++ "hello there",
        ⟨"episodic", "ai", "t", "sess",
          EMBEDDING_MODEL_NAME⟩⟩ : StoredMemory)
        ∈ add_interaction encode3 userStoreOk true "t" "u1" "u2" "hi"
            "hello there" "sess") :=
  claim_C9 c9_encode "t" "u1" "u2" "hi" "hello there" "sess" [1] [2] rfl
    (by decide) rfl (by decide)

end Soulstice
